import Mathlib

/-!
Verification of the tankers-tracker ingestion-and-state core.

This file gives a shallow embedding, in Lean 4, of the parts of the
tankers-tracker Python repository that the checked claims are about:

* `src/models/vessel.py` — the `Vessel` dataclass and its two update
  operations `update_position` / `update_static_data`;
* `src/enums/ship_type.py` and `src/enums/navigational_status.py` — the
  `ShipType` and `NavigationalStatus` IntEnums;
* `src/utils/vessel_info_service.py` — `_merge_vessels` and `get_tankers`;
* `src/utils/vessel_database.py` / `vessel_database_async.py` — the row
  encoding of `save_vessel`, `_row_to_vessel`, and the commit structure of
  the two `bulk_save` variants;
* `src/utils/region_cache.py` — the region membership index;
* `src/utils/ais_client.py` — the acceptance policy of the two message
  handlers and the reconnection backoff state machine.

Python `float` values are modelled as rationals (`ℚ`): the code only
stores, rounds to a fixed number of decimal digits, and compares these
values, and each of those operations is faithfully mirrored on `ℚ`.
Python `None`-able attributes are modelled as `Option` values.  Python
string truthiness (`if name:`) is modelled explicitly: `none` and the
empty string are falsy.
-/

namespace TankersTracker

/-- Python `round(x, d)`: round to `d` decimal digits, ties to even
(banker's rounding), modelled exactly on `ℚ`. -/
def pyRoundInt (x : ℚ) : ℤ :=
  let f : ℤ := ⌊x⌋
  let r : ℚ := x - (f : ℚ)
  if r < 1/2 then f
  else if r > 1/2 then f + 1
  else if f % 2 = 0 then f else f + 1

/-- Python `round(x, d)` for `d` decimal digits. -/
def pyRound (x : ℚ) (d : ℕ) : ℚ :=
  (pyRoundInt (x * (10 : ℚ) ^ d) : ℚ) / (10 : ℚ) ^ d

/-- Python truthiness of an optional string: `None` and `""` are falsy. -/
def pyStrTruthy : Option String → Bool
  | none => false
  | some s => !s.isEmpty

/-- Python `a or b` on optional strings (used by `_merge_vessels`):
the left operand wins when truthy (non-`None`, non-empty). -/
def pyOrStr (a b : Option String) : Option String :=
  match a with
  | some s => if s.isEmpty then b else some s
  | none => b

/-- Python `timestamp or now` with a string fallback (used by
`update_position` for `self.last_update = timestamp or datetime...`). -/
def pyOrStrD (a : Option String) (b : String) : String :=
  match a with
  | some s => if s.isEmpty then b else s
  | none => b

/-- Python truthiness of an optional int: `None` and `0` are falsy. -/
def pyTruthyInt : Option Int → Bool
  | none => false
  | some n => n ≠ 0

/-- Python `f"{n:02d}"`: decimal rendering padded to two digits. -/
def pad2 (n : Int) : String :=
  if 0 ≤ n ∧ n < 10 then "0" ++ toString n else toString n

/-- Python `str.strip()`: remove leading and trailing whitespace
characters (modelled on the string's character list). -/
def pyStrip (s : String) : String :=
  ⟨((s.data.dropWhile Char.isWhitespace).reverse.dropWhile
      Char.isWhitespace).reverse⟩

/-- Lexicographic code-point comparison of two character lists, the
order Python uses for `str < str`. -/
def charListLt : List Char → List Char → Bool
  | [], [] => false
  | [], _ :: _ => true
  | _ :: _, [] => false
  | c :: cs, d :: ds =>
    if c.toNat < d.toNat then true
    else if d.toNat < c.toNat then false
    else charListLt cs ds

/-- Python `a < b` on strings: lexicographic by code point. -/
def pyStrLt (a b : String) : Bool :=
  charListLt a.data b.data

/-- `enums/ship_type.py`: the `ShipType` IntEnum.  Its members are the
cargo codes 70–74 and the tanker codes 80–84; no member exists for
75–79 or 85–89. -/
inductive ShipType where
  | CARGO
  | CARGO_HAZARDOUS_A
  | CARGO_HAZARDOUS_B
  | CARGO_HAZARDOUS_C
  | CARGO_HAZARDOUS_D
  | TANKER
  | TANKER_HAZARDOUS_A
  | TANKER_HAZARDOUS_B
  | TANKER_HAZARDOUS_C
  | TANKER_HAZARDOUS_D
  deriving DecidableEq, Repr

namespace ShipType

/-- Numeric value of each `ShipType` member. -/
def value : ShipType → Int
  | CARGO => 70
  | CARGO_HAZARDOUS_A => 71
  | CARGO_HAZARDOUS_B => 72
  | CARGO_HAZARDOUS_C => 73
  | CARGO_HAZARDOUS_D => 74
  | TANKER => 80
  | TANKER_HAZARDOUS_A => 81
  | TANKER_HAZARDOUS_B => 82
  | TANKER_HAZARDOUS_C => 83
  | TANKER_HAZARDOUS_D => 84

/-- All members of the enum, in declaration order. -/
def members : List ShipType :=
  [CARGO, CARGO_HAZARDOUS_A, CARGO_HAZARDOUS_B, CARGO_HAZARDOUS_C,
   CARGO_HAZARDOUS_D, TANKER, TANKER_HAZARDOUS_A, TANKER_HAZARDOUS_B,
   TANKER_HAZARDOUS_C, TANKER_HAZARDOUS_D]

/-- `ShipType.from_code`: `cls(code)` returns the member with that value,
and the `ValueError` branch returns `None` when no member exists. -/
def from_code (code : Int) : Option ShipType :=
  members.find? (fun m => m.value == code)

/-- `ShipType.is_tanker`: codes 80–89 count as tankers. -/
def is_tanker (s : ShipType) : Bool :=
  80 ≤ s.value && s.value ≤ 89

end ShipType

/-- `enums/navigational_status.py`: the `NavigationalStatus` IntEnum,
members 0–15. -/
inductive NavigationalStatus where
  | UNDER_WAY_ENGINE
  | AT_ANCHOR
  | NOT_UNDER_COMMAND
  | RESTRICTED_MANOEUVRABILITY
  | CONSTRAINED_BY_DRAUGHT
  | MOORED
  | AGROUND
  | ENGAGED_IN_FISHING
  | UNDER_WAY_SAILING
  | RESERVED_HSC
  | RESERVED_WIG
  | RESERVED_11
  | RESERVED_12
  | RESERVED_13
  | AIS_SART
  | NOT_DEFINED
  deriving DecidableEq, Repr

namespace NavigationalStatus

/-- Numeric value of each `NavigationalStatus` member. -/
def value : NavigationalStatus → Int
  | UNDER_WAY_ENGINE => 0
  | AT_ANCHOR => 1
  | NOT_UNDER_COMMAND => 2
  | RESTRICTED_MANOEUVRABILITY => 3
  | CONSTRAINED_BY_DRAUGHT => 4
  | MOORED => 5
  | AGROUND => 6
  | ENGAGED_IN_FISHING => 7
  | UNDER_WAY_SAILING => 8
  | RESERVED_HSC => 9
  | RESERVED_WIG => 10
  | RESERVED_11 => 11
  | RESERVED_12 => 12
  | RESERVED_13 => 13
  | AIS_SART => 14
  | NOT_DEFINED => 15

/-- All members of the enum, in declaration order. -/
def members : List NavigationalStatus :=
  [UNDER_WAY_ENGINE, AT_ANCHOR, NOT_UNDER_COMMAND, RESTRICTED_MANOEUVRABILITY,
   CONSTRAINED_BY_DRAUGHT, MOORED, AGROUND, ENGAGED_IN_FISHING,
   UNDER_WAY_SAILING, RESERVED_HSC, RESERVED_WIG, RESERVED_11,
   RESERVED_12, RESERVED_13, AIS_SART, NOT_DEFINED]

/-- `NavigationalStatus.from_code`: member lookup by value, `None` on
`ValueError`. -/
def from_code (code : Int) : Option NavigationalStatus :=
  members.find? (fun m => m.value == code)

end NavigationalStatus

/-- A value held in `Vessel.ship_type`.  The Python attribute holds either
a `ShipType` enum member (set by `update_static_data` / `_row_to_vessel`)
or a raw `int` (assigned directly by `AISClient._handle_position_report`,
line 319 of `ais_client.py`). -/
inductive StVal where
  | enum (s : ShipType)
  | rawInt (n : Int)
  deriving DecidableEq, Repr

/-- The numeric code carried by a `ship_type` value; for an enum member
this is `.value`, for a raw int the int itself (this is what
`save_vessel` stores). -/
def StVal.pyCode : StVal → Int
  | .enum s => s.value
  | .rawInt n => n

/-- Python `==` on two optional `ship_type` values: `IntEnum` equality
compares numeric values, so an enum member equals the raw int of the
same code. -/
def optShipTypeEq : Option StVal → Option StVal → Bool
  | none, none => true
  | some a, some b => a.pyCode == b.pyCode
  | _, _ => false

/-- `models/vessel.py`: the `Vessel` dataclass.  Every attribute except
`mmsi` defaults to `None` (`update_count` defaults to `0`), exactly as in
the dataclass definition. -/
structure Vessel where
  mmsi : Int
  lat : Option ℚ := none
  lon : Option ℚ := none
  speed : Option ℚ := none
  course : Option ℚ := none
  heading : Option Int := none
  rot : Option ℚ := none
  navigational_status : Option NavigationalStatus := none
  position_accuracy : Option Int := none
  name : Option String := none
  imo : Option Int := none
  callsign : Option String := none
  ship_type : Option StVal := none
  length : Option ℚ := none
  width : Option ℚ := none
  draught : Option ℚ := none
  dimension_to_bow : Option Int := none
  dimension_to_stern : Option Int := none
  dimension_to_port : Option Int := none
  dimension_to_starboard : Option Int := none
  destination : Option String := none
  eta : Option String := none
  cargo : Option String := none
  deadweight : Option Int := none
  gross_tonnage : Option Int := none
  last_update : Option String := none
  first_seen : Option String := none
  update_count : Int := 0
  deriving DecidableEq, Repr

namespace Vessel

/-- `Vessel.update_position` (`models/vessel.py` lines 98–139).  `lat` and
`lon` always overwrite; `speed`/`course`/`rot` are rounded to 1/1/2
decimals when given; a raw integer `navigational_status` goes through
`NavigationalStatus.from_code` (whose result, possibly `None`, is
assigned to the field); `last_update` is `timestamp or now`;
`update_count` increments; `first_seen` is set from the new
`last_update` only when it is currently `None`.  The Python code reads
the wall clock when `timestamp` is falsy; the clock value is passed
explicitly as `now`. -/
def update_position (v : Vessel) (lat lon : ℚ) (speed course : Option ℚ)
    (heading : Option Int) (rot : Option ℚ)
    (navigational_status : Option (Sum Int NavigationalStatus))
    (position_accuracy : Option Int) (timestamp : Option String)
    (now : String) : Vessel :=
  let lu := pyOrStrD timestamp now
  { v with
    lat := some lat
    lon := some lon
    speed := match speed with
      | some s => some (pyRound s 1)
      | none => v.speed
    course := match course with
      | some c => some (pyRound c 1)
      | none => v.course
    heading := match heading with
      | some h => some h
      | none => v.heading
    rot := match rot with
      | some r => some (pyRound r 2)
      | none => v.rot
    navigational_status := match navigational_status with
      | some (.inl n) => NavigationalStatus.from_code n
      | some (.inr s) => some s
      | none => v.navigational_status
    position_accuracy := match position_accuracy with
      | some p => some p
      | none => v.position_accuracy
    last_update := some lu
    update_count := v.update_count + 1
    first_seen := match v.first_seen with
      | none => some lu
      | some t => some t }

/-- `Vessel.update_static_data` (`models/vessel.py` lines 141–201).
String parameters are guarded by Python truthiness (`if name:`) and
stripped; `ship_type` given as a raw int goes through
`ShipType.from_code` (possibly `None`), given as an enum member it is
assigned directly; `draught` is rounded to 1 decimal; the remaining
parameters overwrite only when non-`None`.  The method touches no other
attribute: in particular `last_update`, `first_seen` and `update_count`
do not appear in its body. -/
def update_static_data (v : Vessel) (name destination : Option String)
    (ship_type : Option (Sum Int ShipType)) (imo : Option Int)
    (callsign : Option String) (length width draught : Option ℚ)
    (dimension_to_bow dimension_to_stern dimension_to_port
      dimension_to_starboard : Option Int)
    (eta : Option String) : Vessel :=
  { v with
    name := match name with
      | some s => if s.isEmpty then v.name else some (pyStrip s)
      | none => v.name
    destination := match destination with
      | some s => if s.isEmpty then v.destination else some (pyStrip s)
      | none => v.destination
    ship_type := match ship_type with
      | some (.inl n) => (ShipType.from_code n).map StVal.enum
      | some (.inr s) => some (.enum s)
      | none => v.ship_type
    imo := match imo with
      | some n => some n
      | none => v.imo
    callsign := match callsign with
      | some s => if s.isEmpty then v.callsign else some (pyStrip s)
      | none => v.callsign
    length := match length with
      | some x => some x
      | none => v.length
    width := match width with
      | some x => some x
      | none => v.width
    draught := match draught with
      | some x => some (pyRound x 1)
      | none => v.draught
    dimension_to_bow := match dimension_to_bow with
      | some n => some n
      | none => v.dimension_to_bow
    dimension_to_stern := match dimension_to_stern with
      | some n => some n
      | none => v.dimension_to_stern
    dimension_to_port := match dimension_to_port with
      | some n => some n
      | none => v.dimension_to_port
    dimension_to_starboard := match dimension_to_starboard with
      | some n => some n
      | none => v.dimension_to_starboard
    eta := match eta with
      | some s => if s.isEmpty then v.eta else some s
      | none => v.eta }

/-- `Vessel.has_position`: both latitude and longitude are non-`None`. -/
def has_position (v : Vessel) : Bool :=
  v.lat.isSome && v.lon.isSome

/-- `Vessel.is_tanker` (`models/vessel.py` lines 207–214), which takes no
parameter besides `self`.  `self.ship_type.is_tanker() if self.ship_type
else False`: a falsy `ship_type` (either `None` or the numerically falsy
code 0) yields `False`; an enum member answers `ShipType.is_tanker`; a
raw int value has no `is_tanker` attribute, so the call raises
`AttributeError`. -/
def is_tanker (v : Vessel) : Except String Bool :=
  match v.ship_type with
  | none => .ok false
  | some sv =>
    if sv.pyCode == 0 then .ok false
    else match sv with
      | .enum s => .ok s.is_tanker
      | .rawInt _ => .error "AttributeError: int object has no attribute is_tanker"

end Vessel

/-- One update event applied to a vessel identity: either a call to
`Vessel.update_position` or a call to `Vessel.update_static_data`, with
the arguments the caller supplies (for a position update this includes
the wall-clock value `now` read when `timestamp` is falsy). -/
inductive VesselUpdate where
  | position (lat lon : ℚ) (speed course : Option ℚ) (heading : Option Int)
      (rot : Option ℚ) (navigational_status : Option (Sum Int NavigationalStatus))
      (position_accuracy : Option Int) (timestamp : Option String) (now : String)
  | staticData (name destination : Option String)
      (ship_type : Option (Sum Int ShipType)) (imo : Option Int)
      (callsign : Option String) (length width draught : Option ℚ)
      (dimension_to_bow dimension_to_stern dimension_to_port
        dimension_to_starboard : Option Int)
      (eta : Option String)

/-- Apply one update event to a vessel. -/
def applyUpdate (v : Vessel) : VesselUpdate → Vessel
  | .position lat lon speed course heading rot ns pa ts now =>
    v.update_position lat lon speed course heading rot ns pa ts now
  | .staticData name destination ship_type imo callsign length width draught
      a b c d eta =>
    v.update_static_data name destination ship_type imo callsign
      length width draught a b c d eta

/-- Apply a sequence of update events in order. -/
def applyUpdates (v : Vessel) (us : List VesselUpdate) : Vessel :=
  us.foldl applyUpdate v

/-- The timestamp written by the first position update of a sequence
(`timestamp or now` of that call), or `none` when the sequence contains
no position update. -/
def firstPositionTimestamp : List VesselUpdate → Option String
  | [] => none
  | .position _ _ _ _ _ _ _ _ ts now :: _ => some (pyOrStrD ts now)
  | .staticData _ _ _ _ _ _ _ _ _ _ _ _ _ :: rest => firstPositionTimestamp rest

/-- A vessel as freshly created by the stream client on first sight of an
identity: `Vessel(mmsi=mmsi)`, every optional attribute `None`. -/
def freshVessel (mmsi : Int) : Vessel := { mmsi := mmsi }

/-- `VesselInfoService._merge_vessels` (`vessel_info_service.py` lines
79–117).  Every listed attribute takes the incoming (`new`) value when it
is non-`None`, otherwise the existing one; `last_update` is the Python
expression `new.last_update or existing.last_update`; `first_seen` is
`existing.first_seen or new.first_seen`; `update_count` is the sum of
the two counts. -/
def _merge_vessels (existing nw : Vessel) : Vessel :=
  { mmsi := existing.mmsi
    lat := nw.lat.orElse fun _ => existing.lat
    lon := nw.lon.orElse fun _ => existing.lon
    speed := nw.speed.orElse fun _ => existing.speed
    course := nw.course.orElse fun _ => existing.course
    heading := nw.heading.orElse fun _ => existing.heading
    rot := nw.rot.orElse fun _ => existing.rot
    navigational_status :=
      nw.navigational_status.orElse fun _ => existing.navigational_status
    position_accuracy :=
      nw.position_accuracy.orElse fun _ => existing.position_accuracy
    name := nw.name.orElse fun _ => existing.name
    imo := nw.imo.orElse fun _ => existing.imo
    callsign := nw.callsign.orElse fun _ => existing.callsign
    ship_type := nw.ship_type.orElse fun _ => existing.ship_type
    length := nw.length.orElse fun _ => existing.length
    width := nw.width.orElse fun _ => existing.width
    draught := nw.draught.orElse fun _ => existing.draught
    dimension_to_bow :=
      nw.dimension_to_bow.orElse fun _ => existing.dimension_to_bow
    dimension_to_stern :=
      nw.dimension_to_stern.orElse fun _ => existing.dimension_to_stern
    dimension_to_port :=
      nw.dimension_to_port.orElse fun _ => existing.dimension_to_port
    dimension_to_starboard :=
      nw.dimension_to_starboard.orElse fun _ => existing.dimension_to_starboard
    destination := nw.destination.orElse fun _ => existing.destination
    eta := nw.eta.orElse fun _ => existing.eta
    cargo := nw.cargo.orElse fun _ => existing.cargo
    deadweight := nw.deadweight.orElse fun _ => existing.deadweight
    gross_tonnage := nw.gross_tonnage.orElse fun _ => existing.gross_tonnage
    last_update := pyOrStr nw.last_update existing.last_update
    first_seen := pyOrStr existing.first_seen nw.first_seen
    update_count := existing.update_count + nw.update_count }

/-- The chronologically more recent of two timestamps, following the
spec's words for `merge`: "`last_update` takes the more recent of the two
non-null values".  `"HH:MM:SS"` timestamps compare chronologically as
strings. -/
def spec_more_recent (a b : String) : String :=
  if pyStrLt a b then b else a

/-- The chronologically earlier of two timestamps, following the spec's
words for `merge`: "`first_seen` takes the earlier non-null value". -/
def spec_earlier (a b : String) : String :=
  if pyStrLt b a then b else a

/-- Update-or-insert into an association list keyed by `Int`, the
observable semantics of a Python dict assignment `m[k] = x` and of the
SQLite `INSERT OR REPLACE` upsert keyed by the `mmsi` primary key. -/
def upsert {β : Type} : List (Int × β) → Int → β → List (Int × β)
  | [], k, x => [(k, x)]
  | (k', y) :: rest, k, x =>
    if k' = k then (k, x) :: rest else (k', y) :: upsert rest k x

/-- One row of the `vessels` table (`vessel_database.py` lines 54–98):
every complex value reduced to a primitive scalar, with `ship_type` and
`navigational_status` stored as their numeric codes. -/
structure VesselRow where
  mmsi : Int
  lat : Option ℚ
  lon : Option ℚ
  speed : Option ℚ
  course : Option ℚ
  heading : Option Int
  rot : Option ℚ
  navigational_status : Option Int
  position_accuracy : Option Int
  name : Option String
  imo : Option Int
  callsign : Option String
  ship_type : Option Int
  length : Option ℚ
  width : Option ℚ
  draught : Option ℚ
  dimension_to_bow : Option Int
  dimension_to_stern : Option Int
  dimension_to_port : Option Int
  dimension_to_starboard : Option Int
  destination : Option String
  eta : Option String
  cargo : Option String
  deadweight : Option Int
  gross_tonnage : Option Int
  last_update : Option String
  first_seen : Option String
  update_count : Int
  deriving DecidableEq, Repr

/-- The parameter tuple `save_vessel` binds (`vessel_database.py` lines
200–210): `ship_type` and `navigational_status` reduced to their numeric
codes (`.value` for an enum member, the int itself otherwise);
`sanitize_value` is the identity on the `None`/number/string values the
vessel attributes hold. -/
def vesselToRow (v : Vessel) : VesselRow :=
  { mmsi := v.mmsi
    lat := v.lat
    lon := v.lon
    speed := v.speed
    course := v.course
    heading := v.heading
    rot := v.rot
    navigational_status := v.navigational_status.map NavigationalStatus.value
    position_accuracy := v.position_accuracy
    name := v.name
    imo := v.imo
    callsign := v.callsign
    ship_type := v.ship_type.map StVal.pyCode
    length := v.length
    width := v.width
    draught := v.draught
    dimension_to_bow := v.dimension_to_bow
    dimension_to_stern := v.dimension_to_stern
    dimension_to_port := v.dimension_to_port
    dimension_to_starboard := v.dimension_to_starboard
    destination := v.destination
    eta := v.eta
    cargo := v.cargo
    deadweight := v.deadweight
    gross_tonnage := v.gross_tonnage
    last_update := v.last_update
    first_seen := v.first_seen
    update_count := v.update_count }

/-- `VesselDatabase._row_to_vessel` (`vessel_database.py` lines 302–349):
the stored numeric codes go back through `ShipType.from_code` and
`NavigationalStatus.from_code`, which yield `None` for codes without an
enum member; every other column is copied. -/
def _row_to_vessel (r : VesselRow) : Vessel :=
  { mmsi := r.mmsi
    lat := r.lat
    lon := r.lon
    speed := r.speed
    course := r.course
    heading := r.heading
    rot := r.rot
    navigational_status := r.navigational_status.bind NavigationalStatus.from_code
    position_accuracy := r.position_accuracy
    name := r.name
    imo := r.imo
    callsign := r.callsign
    ship_type := (r.ship_type.bind ShipType.from_code).map StVal.enum
    length := r.length
    width := r.width
    draught := r.draught
    dimension_to_bow := r.dimension_to_bow
    dimension_to_stern := r.dimension_to_stern
    dimension_to_port := r.dimension_to_port
    dimension_to_starboard := r.dimension_to_starboard
    destination := r.destination
    eta := r.eta
    cargo := r.cargo
    deadweight := r.deadweight
    gross_tonnage := r.gross_tonnage
    last_update := r.last_update
    first_seen := r.first_seen
    update_count := r.update_count }

/-- The durable `vessels` table, keyed by `mmsi`. -/
abbrev VesselDB : Type := List (Int × VesselRow)

/-- `VesselDatabase.save_vessel`: `INSERT OR REPLACE` of the row built
from the vessel, keyed by `vessel.mmsi`. -/
def save_vessel (db : VesselDB) (v : Vessel) : VesselDB :=
  upsert db v.mmsi (vesselToRow v)

/-- `VesselDatabase.get_vessel`: `SELECT * FROM vessels WHERE mmsi = ?`
followed by `_row_to_vessel`. -/
def get_vessel (db : VesselDB) (mmsi : Int) : Option Vessel :=
  (List.lookup mmsi db).map _row_to_vessel

/-- Python `==` on two vessel records, field by field.  All fields use
structural equality except `ship_type`, where `IntEnum` equality makes an
enum member equal to the raw int of the same code. -/
def vesselPyEq (a b : Vessel) : Bool :=
  a.mmsi == b.mmsi && a.lat == b.lat && a.lon == b.lon &&
  a.speed == b.speed && a.course == b.course && a.heading == b.heading &&
  a.rot == b.rot &&
  decide (a.navigational_status = b.navigational_status) &&
  a.position_accuracy == b.position_accuracy &&
  a.name == b.name && a.imo == b.imo && a.callsign == b.callsign &&
  optShipTypeEq a.ship_type b.ship_type &&
  a.length == b.length && a.width == b.width && a.draught == b.draught &&
  a.dimension_to_bow == b.dimension_to_bow &&
  a.dimension_to_stern == b.dimension_to_stern &&
  a.dimension_to_port == b.dimension_to_port &&
  a.dimension_to_starboard == b.dimension_to_starboard &&
  a.destination == b.destination && a.eta == b.eta && a.cargo == b.cargo &&
  a.deadweight == b.deadweight && a.gross_tonnage == b.gross_tonnage &&
  a.last_update == b.last_update && a.first_seen == b.first_seen &&
  a.update_count == b.update_count

/-- The vessel's `ship_type` code (if any) has a `ShipType` enum member,
so `_row_to_vessel` can reconstruct it on read. -/
def shipTypeReconstructible (v : Vessel) : Bool :=
  match v.ship_type with
  | none => true
  | some sv => (ShipType.from_code sv.pyCode).isSome

/-- Whether the saved-then-read vessel record equals the saved one in
every field (Python `==` field equality). -/
def roundtripOK (db : VesselDB) (v : Vessel) : Bool :=
  match get_vessel (save_vessel db v) v.mmsi with
  | some w => vesselPyEq w v
  | none => false

/-- Commit batches of the blocking `VesselDatabase.bulk_save`
(`vessel_database.py` lines 351–365): it loops over the vessels calling
`save_vessel`, and every `save_vessel` call ends with its own
`self.conn.commit()` (line 226) — one single-row transaction per
vessel. -/
def bulk_save_commit_batches (vessels : List Vessel) : List (List Vessel) :=
  vessels.map (fun v => [v])

/-- Commit batches of the non-blocking `VesselDatabaseAsync.bulk_save`
(`vessel_database_async.py` lines 95–139): an early return when the batch
is empty, otherwise one `executemany` over all rows followed by a single
`await db.commit()` — the whole batch in one transaction. -/
def bulk_save_async_commit_batches (vessels : List Vessel) : List (List Vessel) :=
  if vessels.isEmpty then [] else [vessels]

/-- Apply a list of committed transactions to the durable store: each
committed batch upserts its rows in order. -/
def applyCommits (db : VesselDB) (batches : List (List Vessel)) : VesselDB :=
  batches.foldl (fun d batch => batch.foldl save_vessel d) db

/-- The durable store contents after a `bulk_save` run is interrupted:
only the first `k` committed transactions are durable, everything after
the interruption point is lost. -/
def durableAfterInterrupt (db : VesselDB) (batches : List (List Vessel))
    (k : ℕ) : VesselDB :=
  applyCommits db (batches.take k)

/-- One entry of `RegionCache.region_bounds` (`region_cache.py` lines
33–44): a named axis-aligned bounding box built from
`[[south, west], [north, east]]`. -/
structure RegionBounds where
  south : ℚ
  north : ℚ
  west : ℚ
  east : ℚ
  deriving DecidableEq, Repr

/-- The `RegionCache` state (`region_cache.py`): the static bounds table
plus the two `defaultdict(set)` indexes, with absent keys reading as the
empty set. -/
structure RegionCache where
  region_bounds : List (String × RegionBounds)
  region_vessels : String → Finset Int
  vessel_regions : Int → Finset String

/-- `RegionCache._find_regions_for_vessel` (`region_cache.py` lines
73–91): the set of region names whose box contains `(lat, lon)`,
inclusively on all four bounds. -/
def _find_regions_for_vessel (bounds : List (String × RegionBounds))
    (lat lon : ℚ) : Finset String :=
  ((bounds.filter (fun rb =>
      decide (rb.2.south ≤ lat ∧ lat ≤ rb.2.north ∧
              rb.2.west ≤ lon ∧ lon ≤ rb.2.east))).map Prod.fst).toFinset

/-- `RegionCache.update_vessel` (`region_cache.py` lines 46–71): a no-op
for a vessel without a position; otherwise recompute the containing
regions, record them for the identity, add the identity to the inverse
index of every current region, and discard it from regions in
`previous - current`. -/
def RegionCache.update_vessel (c : RegionCache) (v : Vessel) : RegionCache :=
  match v.lat, v.lon with
  | some lat, some lon =>
    let mmsi := v.mmsi
    let previous := c.vessel_regions mmsi
    let current := _find_regions_for_vessel c.region_bounds lat lon
    { c with
      vessel_regions := fun m => if m = mmsi then current else c.vessel_regions m
      region_vessels := fun r =>
        if r ∈ current then insert mmsi (c.region_vessels r)
        else if r ∈ previous then (c.region_vessels r).erase mmsi
        else c.region_vessels r }
  | _, _ => c

/-- `RegionCache.get_regions_for_vessel`: read of the forward index. -/
def RegionCache.get_regions_for_vessel (c : RegionCache) (mmsi : Int) :
    Finset String :=
  c.vessel_regions mmsi

/-- `RegionCache.get_vessels_in_region`: read of the inverse index. -/
def RegionCache.get_vessels_in_region (c : RegionCache) (region_name : String) :
    Finset Int :=
  c.region_vessels region_name

/-- `RegionCache.remove_vessel` (`region_cache.py` lines 117–126): pop the
identity's region set and discard the identity from the inverse index of
each of those regions. -/
def RegionCache.remove_vessel (c : RegionCache) (mmsi : Int) : RegionCache :=
  { c with
    vessel_regions := fun m => if m = mmsi then ∅ else c.vessel_regions m
    region_vessels := fun r =>
      if r ∈ c.vessel_regions mmsi then (c.region_vessels r).erase mmsi
      else c.region_vessels r }

/-- A freshly constructed `RegionCache`: both indexes empty. -/
def RegionCache.init (bounds : List (String × RegionBounds)) : RegionCache :=
  { region_bounds := bounds
    region_vessels := fun _ => ∅
    vessel_regions := fun _ => ∅ }

/-- The consistency invariant between the two directions of the region
index: an identity sits in a region's vessel set exactly when that region
sits in the identity's region set. -/
def RegionCache.Inv (c : RegionCache) : Prop :=
  ∀ m r, m ∈ c.region_vessels r ↔ r ∈ c.vessel_regions m

/-- The payload of a `PositionReport` frame as the handler reads it
(`ais_client.py` lines 290–314): mandatory identity and coordinates, the
rest read with `.get` (so possibly absent). -/
structure PositionReport where
  UserID : Int
  Latitude : ℚ
  Longitude : ℚ
  Sog : Option ℚ
  Cog : Option ℚ
  TrueHeading : Option Int
  Rot : Option ℚ
  NavigationalStatus : Option Int
  PositionAccuracy : Option Int
  ShipType : Option Int

/-- The `Dimension` sub-dict of a `ShipStaticData` frame: the four
antenna offsets, each possibly absent or null (both read as missing,
since the handler replaces them by `0` via `.get("A", 0) or 0`). -/
structure DimensionDict where
  A : Option Int
  B : Option Int
  C : Option Int
  D : Option Int

/-- The `Eta` sub-dict of a `ShipStaticData` frame; fields read with
`.get` and a default. -/
structure EtaDict where
  Month : Option Int
  Day : Option Int
  Hour : Option Int
  Minute : Option Int

/-- The payload of a `ShipStaticData` frame as the handler reads it
(`ais_client.py` lines 225–262). -/
structure ShipStaticMsg where
  UserID : Int
  TypeCode : Option Int
  Name : Option String
  Destination : Option String
  ImoNumber : Option Int
  CallSign : Option String
  Dimension : Option DimensionDict
  Eta : Option EtaDict

/-- `AISClient._parse_eta` (`ais_client.py` lines 365–395): `None` in,
`None` out; month/day default to 0 and must both be positive; hour/minute
default to the out-of-range sentinels 24/60 and are included in the
formatted string only when in range. -/
def _parse_eta : Option EtaDict → Option String
  | none => none
  | some d =>
    let month := d.Month.getD 0
    let day := d.Day.getD 0
    if month > 0 ∧ day > 0 then
      let hour := d.Hour.getD 24
      let minute := d.Minute.getD 60
      if hour < 24 ∧ minute < 60 then
        some (pad2 month ++ "-" ++ pad2 day ++ " " ++ pad2 hour ++ ":" ++ pad2 minute)
      else
        some (pad2 month ++ "-" ++ pad2 day)
    else none

/-- The mutable `AISClient` state the message handlers touch: the tracked
vessel dict, the configured ceiling, and the two message counters. -/
structure AISClient where
  vessels : List (Int × Vessel)
  max_vessels : ℕ
  position_count : ℕ
  static_count : ℕ

/-- The vessel produced by an accepted position report for `v` (the
existing record, or `Vessel(mmsi=...)` for a new identity): the
`update_position` call of `_handle_position_report` (timestamp always
supplied as the current UTC wall clock `now`), followed by the direct raw
assignment `self.vessels[mmsi].ship_type = position_data["ShipType"]`
when that field is truthy. -/
def posMsgApply (v : Vessel) (p : PositionReport) (now : String) : Vessel :=
  let v1 := v.update_position p.Latitude p.Longitude p.Sog p.Cog
    p.TrueHeading p.Rot (p.NavigationalStatus.map Sum.inl)
    p.PositionAccuracy (some now) now
  if pyTruthyInt p.ShipType then
    { v1 with ship_type := p.ShipType.map StVal.rawInt }
  else v1

/-- `AISClient._handle_position_report` (`ais_client.py` lines 290–314):
accept when the identity is already tracked or the vessel count is below
`max_vessels`; on acceptance bump `position_count`, create the vessel if
absent and apply the position update; otherwise leave the state
untouched. -/
def _handle_position_report (s : AISClient) (p : PositionReport)
    (now : String) : AISClient :=
  let mmsi := p.UserID
  if (List.lookup mmsi s.vessels).isSome || s.vessels.length < s.max_vessels then
    let v0 := (List.lookup mmsi s.vessels).getD (freshVessel mmsi)
    { s with
      position_count := s.position_count + 1
      vessels := upsert s.vessels mmsi (posMsgApply v0 p now) }
  else s

/-- The vessel produced by an accepted static report for `v`: the
`update_static_data` call of `_handle_static_data` (name, destination,
type, imo, callsign, the four dimension offsets and the parsed ETA;
length/width/draught are not passed), followed by the

combination of the antenna offsets into `length`/`width` when the
`Dimension` dict is present and the respective pair of offsets is
truthy. -/
def staticMsgApply (v : Vessel) (m : ShipStaticMsg) : Vessel :=
  let dims := m.Dimension.getD ⟨none, none, none, none⟩
  let eta_string := _parse_eta m.Eta
  let v1 := v.update_static_data m.Name m.Destination (m.TypeCode.map Sum.inl)
    m.ImoNumber m.CallSign none none none dims.A dims.B dims.C dims.D
    eta_string
  if m.Dimension.isSome then
    let a := dims.A.getD 0
    let b := dims.B.getD 0
    let c := dims.C.getD 0
    let d := dims.D.getD 0
    let v2 := if a ≠ 0 ∧ b ≠ 0 then { v1 with length := some ((a + b : Int) : ℚ) }
              else v1
    if c ≠ 0 ∧ d ≠ 0 then { v2 with width := some ((c + d : Int) : ℚ) } else v2
  else v1

/-- `AISClient._handle_static_data` (`ais_client.py` lines 225–288):
accept when the vessel count is below `max_vessels` or the identity is
already tracked; on acceptance bump `static_count`, create the vessel if
absent and apply the static update; otherwise leave the state
untouched. -/
def _handle_static_data (s : AISClient) (m : ShipStaticMsg) : AISClient :=
  let mmsi := m.UserID
  if s.vessels.length < s.max_vessels || (List.lookup mmsi s.vessels).isSome then
    let v0 := (List.lookup mmsi s.vessels).getD (freshVessel mmsi)
    { s with
      static_count := s.static_count + 1
      vessels := upsert s.vessels mmsi (staticMsgApply v0 m) }
  else s

/-- `self.max_reconnect_delay = 60` (`ais_client.py` line 69). -/
def max_reconnect_delay : ℕ := 60

/-- The reconnection bookkeeping of `AISClient.connect`: the consecutive
failed-attempt counter. -/
structure ConnState where
  reconnect_attempts : ℕ
  deriving DecidableEq, Repr

/-- Connection-lifecycle events of the `connect` loop (`ais_client.py`
lines 79–142): a successful connection, a connection-level failure
(`WebSocketException` / `ConnectionClosed` / `ConnectionResetError` /
`TimeoutError`), or the generic `except Exception` fallback. -/
inductive ConnEvent where
  | connected
  | connFailure
  | otherError
  deriving DecidableEq, Repr

/-- One step of the `connect` loop, returning the next state and the
delay (in seconds) slept before retrying, if any: success resets
`reconnect_attempts` to 0 (line 90) and sleeps nothing; a
connection-level failure increments the counter and sleeps
`min(2 ** attempts, max_reconnect_delay)` (lines 117–118, 131); the
generic fallback sleeps a fixed 10 seconds without touching the counter
(line 142). -/
def stepConn (s : ConnState) : ConnEvent → ConnState × Option ℕ
  | .connected => ({ reconnect_attempts := 0 }, none)
  | .connFailure =>
    let a := s.reconnect_attempts + 1
    ({ reconnect_attempts := a }, some (min (2 ^ a) max_reconnect_delay))
  | .otherError => (s, some 10)

/-- Run the `connect` loop over a sequence of events, starting from the
constructor state `reconnect_attempts = 0`. -/
def runConn (evs : List ConnEvent) : ConnState :=
  evs.foldl (fun s e => (stepConn s e).1) { reconnect_attempts := 0 }

/-- The number of connection-level failures since the last successful
connection in an event sequence (all of them when no success has
occurred). -/
def connFailuresSinceConnect (evs : List ConnEvent) : ℕ :=
  (evs.reverse.takeWhile (fun e => e ≠ ConnEvent.connected)).count
    ConnEvent.connFailure

/-- The call `vessel.is_tanker(tanker_types)` made by
`VesselInfoService.get_tankers` (`vessel_info_service.py` line 177).
`Vessel.is_tanker` (`models/vessel.py` line 207) accepts no parameter
besides `self`, so passing `tanker_types` as a positional argument makes
Python raise `TypeError` before the method body runs. -/
def Vessel.is_tanker_call1 (_v : Vessel) (_tanker_types : List Int) :
    Except String Bool :=
  .error "TypeError: is_tanker() takes 1 positional argument but 2 were given"

/-- `VesselInfoService.get_tankers` (`vessel_info_service.py` lines
164–178): the dict comprehension keeping the cached vessels for which
`vessel.is_tanker(tanker_types)` is true; an exception raised by the call
propagates out of the comprehension. -/
def get_tankers (vessels_cache : List (Int × Vessel)) (tanker_types : List Int) :
    Except String (List (Int × Vessel)) := do
  let flagged ← vessels_cache.mapM
    (fun p => (p.2.is_tanker_call1 tanker_types).map (fun b => (p, b)))
  pure ((flagged.filter (fun q => q.2)).map (fun q => q.1))

/-- Example data: explicit concrete inputs used by witnesses and
counterexamples below. -/
def mergeExistingEx : Vessel :=
  { mmsi := 1, last_update := some "10:00:00", first_seen := some "10:00:00",
    update_count := 1 }

/-- Example data: an incoming record carrying strictly older timestamps
than `mergeExistingEx`. -/
def mergeIncomingEx : Vessel :=
  { mmsi := 1, last_update := some "09:00:00", first_seen := some "09:00:00",
    update_count := 1 }

/-- Example data: a vessel whose `ship_type` holds the raw code 75 (set by
a position report), inside the cargo band 70–79 but with no `ShipType`
member. -/
def rawShip75Ex : Vessel :=
  { mmsi := 9, ship_type := some (.rawInt 75), name := some "GHOST",
    lat := some 26, lon := some 56, update_count := 3 }

/-- Example data: a fully populated vessel whose `ship_type` is the
`TANKER` enum member (code 80). -/
def enumShip80Ex : Vessel :=
  { mmsi := 3, ship_type := some (.enum .TANKER), name := some "ASTRO",
    lat := some 25, lon := some 55, speed := some (17/10),
    navigational_status := some .MOORED, destination := some "ROTTERDAM",
    last_update := some "12:00:00", first_seen := some "11:00:00",
    update_count := 4 }

/-- Example data: first vessel of a two-row bulk-save batch. -/
def bulkVesselA : Vessel := { mmsi := 1, name := some "ALFA" }

/-- Example data: second vessel of a two-row bulk-save batch. -/
def bulkVesselB : Vessel := { mmsi := 2, name := some "BRAVO" }

/-- Example data: a tracked vessel sitting in a client state. -/
def trackedVesselEx : Vessel := { mmsi := 1, name := some "KILO" }

/-- Example data: a client already tracking one vessel with the ceiling
set to 1 (at capacity). -/
def clientFullEx : AISClient :=
  { vessels := [(1, trackedVesselEx)], max_vessels := 1,
    position_count := 0, static_count := 0 }

/-- Example data: a position report for the previously unseen identity 7. -/
def posMsgEx : PositionReport :=
  { UserID := 7, Latitude := 7, Longitude := 7, Sog := some 12,
    Cog := some 90, TrueHeading := some 91, Rot := none,
    NavigationalStatus := some 0, PositionAccuracy := some 1,
    ShipType := some 80 }

/-- Example data: a static report for the already-tracked identity 1. -/
def staticMsgEx : ShipStaticMsg :=
  { UserID := 1, TypeCode := some 80, Name := some "KILO",
    Destination := some "SINGAPORE", ImoNumber := some 1234567,
    CallSign := some "KLO1", Dimension := some ⟨some 100, some 80, some 10,
      some 12⟩, Eta := some ⟨some 12, some 24, some 6, some 30⟩ }

/-- Example data: the spec scenario region set with two overlapping
boxes, `A = [[0, 0], [10, 10]]` and `B = [[5, 5], [15, 15]]`. -/
def regionsABEx : List (String × RegionBounds) :=
  [("A", { south := 0, north := 10, west := 0, east := 10 }),
   ("B", { south := 5, north := 15, west := 5, east := 15 })]

/-- Example data: a vessel positioned at `(7, 7)`, inside both scenario
regions. -/
def vesselAt77Ex : Vessel := { mmsi := 42, lat := some 7, lon := some 7 }

/-- Example data: a one-vessel cache whose only entry is a tanker by enum
code 80. -/
def tankerCacheEx : List (Int × Vessel) :=
  [(1, { mmsi := 1, ship_type := some (.enum .TANKER), lat := some 26,
         lon := some 56 })]

/-- Helper: looking up the enum code of a `ShipType` member recovers the
member. -/
theorem ShipType.from_code_value_self (s : ShipType) :
    ShipType.from_code s.value = some s := by
  cases s <;> rfl

/-- Helper: looking up the enum code of a `NavigationalStatus` member
recovers the member. -/
theorem NavigationalStatus.from_code_of_value (s : NavigationalStatus) :
    NavigationalStatus.from_code s.value = some s := by
  cases s <;> rfl

/-- Helper: a successful `ShipType.from_code` lookup returns a member
carrying the looked-up code. -/
theorem ShipType.value_of_from_code {c : Int} {s : ShipType}
    (h : ShipType.from_code c = some s) : s.value = c := by
  have := List.find?_some h
  simpa using this

/-- Helper: looking up the upserted key finds the upserted value. -/
theorem lookup_upsert_self {β : Type} (m : List (Int × β)) (k : Int) (x : β) :
    List.lookup k (upsert m k x) = some x := by
  induction m with
  | nil => simp [upsert, List.lookup]
  | cons hd tl ih =>
    obtain ⟨k', y⟩ := hd
    by_cases hk : k' = k
    · subst hk
      simp [upsert, List.lookup]
    · have hbeq : (k == k') = false :=
        beq_eq_false_iff_ne.mpr (fun hh => hk hh.symm)
      simp [upsert, hk, List.lookup, hbeq, ih]

/-- Helper: the `first_seen` field after a position update, read off the
record update. -/
theorem Vessel.update_position_first_seen (v : Vessel) (lat lon : ℚ)
    (speed course : Option ℚ) (heading : Option Int) (rot : Option ℚ)
    (ns : Option (Sum Int NavigationalStatus)) (pa : Option Int)
    (ts : Option String) (now : String) :
    (v.update_position lat lon speed course heading rot ns pa ts
        now).first_seen
      = match v.first_seen with
        | none => some (pyOrStrD ts now)
        | some t => some t := rfl

/-- Helper: a static-data update never touches `first_seen`. -/
theorem Vessel.update_static_data_first_seen (v : Vessel)
    (name destination : Option String) (ship_type : Option (Sum Int ShipType))
    (imo : Option Int) (callsign : Option String)
    (length width draught : Option ℚ)
    (a b c d : Option Int) (eta : Option String) :
    (v.update_static_data name destination ship_type imo callsign length
        width draught a b c d eta).first_seen = v.first_seen := rfl

/-- Helper: folding a cons. -/
theorem applyUpdates_cons (v : Vessel) (u : VesselUpdate)
    (us : List VesselUpdate) :
    applyUpdates v (u :: us) = applyUpdates (applyUpdate v u) us := rfl

/-- Helper: a non-`None` `first_seen` survives any sequence of updates
unchanged. -/
theorem first_seen_stable (v : Vessel) (t : String) (h : v.first_seen = some t)
    (us : List VesselUpdate) : (applyUpdates v us).first_seen = some t := by
  induction us generalizing v with
  | nil => exact h
  | cons u rest ih =>
    rw [applyUpdates_cons]
    refine ih _ ?_
    cases u with
    | position lat lon speed course heading rot ns pa ts now =>
      show (v.update_position lat lon speed course heading rot ns pa ts
          now).first_seen = some t
      rw [Vessel.update_position_first_seen, h]
    | staticData name destination ship_type imo callsign length width
        draught a b c d eta =>
      show (v.update_static_data name destination ship_type imo callsign
          length width draught a b c d eta).first_seen = some t
      rw [Vessel.update_static_data_first_seen, h]

/-- Helper: starting from an unset `first_seen`, a sequence of updates
leaves `first_seen` equal to the timestamp written by its first position
update (and unset when there is none). -/
theorem first_seen_from_none (v : Vessel) (h : v.first_seen = none)
    (us : List VesselUpdate) :
    (applyUpdates v us).first_seen = firstPositionTimestamp us := by
  induction us generalizing v with
  | nil => exact h
  | cons u rest ih =>
    rw [applyUpdates_cons]
    cases u with
    | position lat lon speed course heading rot ns pa ts now =>
      have hset : (applyUpdate v
          (.position lat lon speed course heading rot ns pa ts now)).first_seen
          = some (pyOrStrD ts now) := by
        show (v.update_position lat lon speed course heading rot ns pa ts
            now).first_seen = some (pyOrStrD ts now)
        rw [Vessel.update_position_first_seen, h]
      exact first_seen_stable _ _ hset rest
    | staticData name destination ship_type imo callsign length width
        draught a b c d eta =>
      have hkeep : (applyUpdate v
          (.staticData name destination ship_type imo callsign length width
            draught a b c d eta)).first_seen = none := by
        show (v.update_static_data name destination ship_type imo callsign
            length width draught a b c d eta).first_seen = none
        rw [Vessel.update_static_data_first_seen, h]
      exact ih _ hkeep

/-- C1 (counterexample): a vessel freshly created for its identity and
given, as its very first update, a static report carrying a static datum
(a vessel name) still has `first_seen` unset afterwards — the claim says
this first static update must set it.  `update_static_data` never
assigns `first_seen`. -/
theorem static_first_update_leaves_first_seen_unset :
    (applyUpdate (freshVessel 1)
        (.staticData (some "EVER GIVEN") none none none none none none none
          none none none none none)).first_seen = none
    ∧ (applyUpdate (freshVessel 1)
        (.staticData (some "EVER GIVEN") none none none none none none none
          none none none none none)).name = some "EVER GIVEN" := by
  constructor
  · rfl
  · decide

/-- C1 (amended): over every sequence of position and static updates
applied to a freshly created vessel identity, `first_seen` equals the
timestamp written by the first *position* update of the sequence — it is
set exactly once, by that update, and never overwritten afterwards; a
vessel that has received only static updates has `first_seen` unset,
because `update_static_data` does not touch it. -/
theorem first_seen_set_by_first_position_update_only (mmsi : Int)
    (us : List VesselUpdate) :
    (applyUpdates (freshVessel mmsi) us).first_seen
      = firstPositionTimestamp us :=
  first_seen_from_none (freshVessel mmsi) rfl us

/-- C9: applying the identical position update (same arguments) twice in
a row yields, after the second application, the same value in every
field as after the first application, except `update_count` (which
increments once more) and `last_update` (which is written again, to
`timestamp or now₂`); in particular the fields rounded at update time
(`speed`, `course`, `rot`) are unchanged by the second application. -/
theorem update_position_idempotent_modulo_count_and_timestamp
    (v : Vessel) (lat lon : ℚ) (speed course : Option ℚ)
    (heading : Option Int) (rot : Option ℚ)
    (ns : Option (Sum Int NavigationalStatus)) (pa : Option Int)
    (ts : Option String) (now1 now2 : String) :
    let v1 := v.update_position lat lon speed course heading rot ns pa ts now1
    let v2 := v1.update_position lat lon speed course heading rot ns pa ts now2
    v2.mmsi = v1.mmsi ∧ v2.lat = v1.lat ∧ v2.lon = v1.lon ∧
    v2.speed = v1.speed ∧ v2.course = v1.course ∧ v2.heading = v1.heading ∧
    v2.rot = v1.rot ∧ v2.navigational_status = v1.navigational_status ∧
    v2.position_accuracy = v1.position_accuracy ∧
    v2.name = v1.name ∧ v2.imo = v1.imo ∧ v2.callsign = v1.callsign ∧
    v2.ship_type = v1.ship_type ∧ v2.length = v1.length ∧
    v2.width = v1.width ∧ v2.draught = v1.draught ∧
    v2.dimension_to_bow = v1.dimension_to_bow ∧
    v2.dimension_to_stern = v1.dimension_to_stern ∧
    v2.dimension_to_port = v1.dimension_to_port ∧
    v2.dimension_to_starboard = v1.dimension_to_starboard ∧
    v2.destination = v1.destination ∧ v2.eta = v1.eta ∧ v2.cargo = v1.cargo ∧
    v2.deadweight = v1.deadweight ∧ v2.gross_tonnage = v1.gross_tonnage ∧
    v2.first_seen = v1.first_seen ∧
    v2.update_count = v1.update_count + 1 ∧
    v2.last_update = some (pyOrStrD ts now2) := by
  refine ⟨rfl, rfl, rfl, ?_, ?_, ?_, ?_, ?_, ?_, rfl, rfl, rfl, rfl, rfl,
    rfl, rfl, rfl, rfl, rfl, rfl, rfl, rfl, rfl, rfl, rfl, ?_, rfl, rfl⟩
  · cases speed <;> rfl
  · cases course <;> rfl
  · cases heading <;> rfl
  · cases rot <;> rfl
  · rcases ns with _ | (n | n) <;> rfl
  · cases pa <;> rfl
  · show (Vessel.update_position
        (Vessel.update_position v lat lon speed course heading rot ns pa ts
          now1) lat lon speed course heading rot ns pa ts now2).first_seen
      = (Vessel.update_position v lat lon speed course heading rot ns pa ts
          now1).first_seen
    rw [Vessel.update_position_first_seen, Vessel.update_position_first_seen]
    cases v.first_seen <;> rfl

/-- C10: a static-data update leaves every field outside its parameter
set untouched: position and motion fields, voyage tonnage fields, and
the tracking metadata (`last_update`, `first_seen`, `update_count`) all
keep their prior values. -/
theorem update_static_data_preserves_position_and_tracking_fields
    (v : Vessel) (name destination : Option String)
    (ship_type : Option (Sum Int ShipType)) (imo : Option Int)
    (callsign : Option String) (length width draught : Option ℚ)
    (dimension_to_bow dimension_to_stern dimension_to_port
      dimension_to_starboard : Option Int) (eta : Option String) :
    (v.update_static_data name destination ship_type imo callsign length
        width draught dimension_to_bow dimension_to_stern dimension_to_port
        dimension_to_starboard eta).lat = v.lat
    ∧ (v.update_static_data name destination ship_type imo callsign length
        width draught dimension_to_bow dimension_to_stern dimension_to_port
        dimension_to_starboard eta).lon = v.lon
    ∧ (v.update_static_data name destination ship_type imo callsign length
        width draught dimension_to_bow dimension_to_stern dimension_to_port
        dimension_to_starboard eta).speed = v.speed
    ∧ (v.update_static_data name destination ship_type imo callsign length
        width draught dimension_to_bow dimension_to_stern dimension_to_port
        dimension_to_starboard eta).course = v.course
    ∧ (v.update_static_data name destination ship_type imo callsign length
        width draught dimension_to_bow dimension_to_stern dimension_to_port
        dimension_to_starboard eta).heading = v.heading
    ∧ (v.update_static_data name destination ship_type imo callsign length
        width draught dimension_to_bow dimension_to_stern dimension_to_port
        dimension_to_starboard eta).rot = v.rot
    ∧ (v.update_static_data name destination ship_type imo callsign length
        width draught dimension_to_bow dimension_to_stern dimension_to_port
        dimension_to_starboard eta).navigational_status = v.navigational_status
    ∧ (v.update_static_data name destination ship_type imo callsign length
        width draught dimension_to_bow dimension_to_stern dimension_to_port
        dimension_to_starboard eta).position_accuracy = v.position_accuracy
    ∧ (v.update_static_data name destination ship_type imo callsign length
        width draught dimension_to_bow dimension_to_stern dimension_to_port
        dimension_to_starboard eta).cargo = v.cargo
    ∧ (v.update_static_data name destination ship_type imo callsign length
        width draught dimension_to_bow dimension_to_stern dimension_to_port
        dimension_to_starboard eta).deadweight = v.deadweight
    ∧ (v.update_static_data name destination ship_type imo callsign length
        width draught dimension_to_bow dimension_to_stern dimension_to_port
        dimension_to_starboard eta).gross_tonnage = v.gross_tonnage
    ∧ (v.update_static_data name destination ship_type imo callsign length
        width draught dimension_to_bow dimension_to_stern dimension_to_port
        dimension_to_starboard eta).last_update = v.last_update
    ∧ (v.update_static_data name destination ship_type imo callsign length
        width draught dimension_to_bow dimension_to_stern dimension_to_port
        dimension_to_starboard eta).first_seen = v.first_seen
    ∧ (v.update_static_data name destination ship_type imo callsign length
        width draught dimension_to_bow dimension_to_stern dimension_to_port
        dimension_to_starboard eta).update_count = v.update_count :=
  ⟨rfl, rfl, rfl, rfl, rfl, rfl, rfl, rfl, rfl, rfl, rfl, rfl, rfl, rfl⟩

/-- C3 (counterexample): merging an existing record whose `last_update`
and `first_seen` are `10:00:00` with an incoming record carrying the
strictly older `09:00:00` in both fields yields `last_update = 09:00:00`
(not the more recent `10:00:00`) and `first_seen = 10:00:00` (not the
earlier `09:00:00`): `_merge_vessels` picks a fixed preferred side, not
the chronologically correct value. -/
theorem merge_timestamps_not_chronological :
    (_merge_vessels mergeExistingEx mergeIncomingEx).last_update
      = some "09:00:00"
    ∧ spec_more_recent "10:00:00" "09:00:00" = "10:00:00"
    ∧ (_merge_vessels mergeExistingEx mergeIncomingEx).first_seen
      = some "10:00:00"
    ∧ spec_earlier "10:00:00" "09:00:00" = "09:00:00"
    ∧ ("09:00:00" : String) ≠ ("10:00:00" : String)
    ∧ ("10:00:00" : String) ≠ ("09:00:00" : String) := by
  refine ⟨rfl, by decide, rfl, by decide, by decide, by decide⟩

/-- C3 (amended): `_merge_vessels` resolves the two timestamp fields by a
fixed side preference, not chronologically: `last_update` takes the
incoming record's value whenever it is truthy (non-null, non-empty) —
even when the existing value is also non-null — and `first_seen` takes
the existing record's value whenever it is truthy, even when the
incoming value is also non-null. -/
theorem merge_prefers_incoming_last_update_and_existing_first_seen
    (existing nw : Vessel) (a b c d : String)
    (ha : nw.last_update = some a) (ha' : a.isEmpty = false)
    (_hb : existing.last_update = some b)
    (hc : existing.first_seen = some c) (hc' : c.isEmpty = false)
    (_hd : nw.first_seen = some d) :
    (_merge_vessels existing nw).last_update = some a
    ∧ (_merge_vessels existing nw).first_seen = some c := by
  constructor
  · show pyOrStr nw.last_update existing.last_update = some a
    rw [ha]
    simp [pyOrStr, ha']
  · show pyOrStr existing.first_seen nw.first_seen = some c
    rw [hc]
    simp [pyOrStr, hc']

/-- C3 (witness): the amended merge theorem applied at a concrete pair of
records with all four timestamps non-null. -/
theorem merge_prefers_incoming_last_update_and_existing_first_seen_witness :
    (_merge_vessels mergeExistingEx mergeIncomingEx).last_update
      = some "09:00:00"
    ∧ (_merge_vessels mergeExistingEx mergeIncomingEx).first_seen
      = some "10:00:00" :=
  merge_prefers_incoming_last_update_and_existing_first_seen
    mergeExistingEx mergeIncomingEx "09:00:00" "10:00:00" "10:00:00"
    "09:00:00" rfl (by decide) rfl rfl (by decide) rfl

/-- C4 (counterexample): a vessel record whose ship-type code is 75 —
inside the cargo band 70–79 — does not survive the save/read round trip:
the code is stored numerically, but `ShipType.from_code 75` has no enum
member, so the read-back record's `ship_type` is `None` and the record is
not equal in every field to the one saved. -/
theorem roundtrip_loses_ship_type_75 :
    ((70 : Int) ≤ 75 ∧ (75 : Int) ≤ 79)
    ∧ rawShip75Ex.ship_type = some (.rawInt 75)
    ∧ (get_vessel (save_vessel [] rawShip75Ex) 9).map Vessel.ship_type
      = some none
    ∧ (get_vessel (save_vessel [] rawShip75Ex) 9).map
        (fun w => vesselPyEq w rawShip75Ex) = some false
    ∧ roundtripOK [] rawShip75Ex = false := by
  refine ⟨by decide, rfl, by decide, by decide, by decide⟩

/-- C4 (amended): saving a vessel and reading it back by identity yields
a record equal (under Python field equality) to the saved one in every
field, provided its ship-type code, if set, is one of the codes that
actually have a `ShipType` enum member (70–74 and 80–84); the
enumerated fields are stored as numeric codes and reconstructed on read,
and `navigational_status` always reconstructs exactly.  For codes 75–79
and 85–89 the reconstruction yields `None`, so the unrestricted claim
fails. -/
theorem save_get_roundtrip (db : VesselDB) (v : Vessel)
    (h : shipTypeReconstructible v = true) : roundtripOK db v = true := by
  have hnav : ((v.navigational_status.map NavigationalStatus.value).bind
      NavigationalStatus.from_code) = v.navigational_status := by
    cases v.navigational_status with
    | none => rfl
    | some s => simp [NavigationalStatus.from_code_of_value]
  have hst : optShipTypeEq
      ((v.ship_type.map StVal.pyCode).bind
        (fun a => (ShipType.from_code a).map StVal.enum)) v.ship_type
      = true := by
    cases hv : v.ship_type with
    | none => rfl
    | some sv =>
      unfold shipTypeReconstructible at h
      rw [hv] at h
      obtain ⟨st, hstq⟩ := Option.isSome_iff_exists.mp h
      have hval := ShipType.value_of_from_code hstq
      show optShipTypeEq ((ShipType.from_code sv.pyCode).map StVal.enum)
        (some sv) = true
      rw [hstq]
      simp [optShipTypeEq, StVal.pyCode, hval]
  unfold roundtripOK get_vessel save_vessel
  rw [lookup_upsert_self]
  show vesselPyEq (_row_to_vessel (vesselToRow v)) v = true
  unfold vesselPyEq _row_to_vessel vesselToRow
  simp only []
  simp [hnav, hst]

/-- C4 (witness): the amended round-trip theorem applied to a concrete
fully populated tanker record (enum code 80). -/
theorem save_get_roundtrip_witness :
    shipTypeReconstructible enumShip80Ex = true
    ∧ roundtripOK [] enumShip80Ex = true :=
  ⟨by decide, save_get_roundtrip [] enumShip80Ex (by decide)⟩

/-- Helper: applying the per-row commit batches of the blocking
`bulk_save` to completion equals folding the row upserts directly. -/
theorem applyCommits_blocking (db : VesselDB) (vessels : List Vessel) :
    applyCommits db (bulk_save_commit_batches vessels)
      = vessels.foldl save_vessel db := by
  induction vessels generalizing db with
  | nil => rfl
  | cons v rest ih =>
    simp only [bulk_save_commit_batches, List.map_cons, applyCommits,
      List.foldl_cons] at *
    exact ih _

/-- C6 (counterexample): the blocking `VesselDatabase.bulk_save` commits
each row's upsert in its own transaction: interrupting a two-row batch
after its first commit leaves exactly the first row durably committed —
the store is half-updated, neither empty nor fully updated, so the
claimed all-or-nothing behaviour (identical across both variants) fails
for the blocking variant. -/
theorem blocking_bulk_save_commits_rows_separately :
    durableAfterInterrupt [] (bulk_save_commit_batches [bulkVesselA, bulkVesselB]) 1
      = [((1 : Int), vesselToRow bulkVesselA)]
    ∧ durableAfterInterrupt []
        (bulk_save_commit_batches [bulkVesselA, bulkVesselB]) 1 ≠ []
    ∧ durableAfterInterrupt []
        (bulk_save_commit_batches [bulkVesselA, bulkVesselB]) 1
      ≠ applyCommits [] (bulk_save_commit_batches [bulkVesselA, bulkVesselB])
    ∧ 1 < (bulk_save_commit_batches [bulkVesselA, bulkVesselB]).length := by
  refine ⟨by decide, by decide, by decide, by decide⟩

/-- C6 (amended): only the non-blocking variant's `bulk_save` is atomic:
`VesselDatabaseAsync.bulk_save` runs the whole batch inside a single
transaction, so an interruption at any point before that commit leaves
the durable store exactly as it was (no row of the batch committed),
and a completed run produces the same final store as the blocking
variant's row-by-row upserts.  The blocking variant commits per row and
is not atomic (see the counterexample). -/
theorem async_bulk_save_single_transaction (db : VesselDB)
    (vessels : List Vessel) (k : ℕ) :
    (k < (bulk_save_async_commit_batches vessels).length →
      durableAfterInterrupt db (bulk_save_async_commit_batches vessels) k = db)
    ∧ applyCommits db (bulk_save_async_commit_batches vessels)
      = applyCommits db (bulk_save_commit_batches vessels) := by
  constructor
  · intro hk
    unfold bulk_save_async_commit_batches at hk ⊢
    by_cases he : vessels.isEmpty
    · simp [he] at hk
    · simp only [he, if_neg, Bool.false_eq_true, not_false_eq_true,
        if_false] at hk ⊢
      have hk0 : k = 0 := Nat.lt_one_iff.mp (by simpa using hk)
      subst hk0
      rfl
  · rw [applyCommits_blocking]
    unfold bulk_save_async_commit_batches
    by_cases he : vessels.isEmpty
    · have : vessels = [] := List.isEmpty_iff.mp he
      subst this
      rfl
    · simp only [he, Bool.false_eq_true, not_false_eq_true, if_false]
      rfl

/-- C6 (witness): the atomicity half of the amended theorem applied to a
concrete one-row batch interrupted before its single commit, and the
final-state agreement of the two variants on that batch. -/
theorem async_bulk_save_single_transaction_witness :
    durableAfterInterrupt [] (bulk_save_async_commit_batches [bulkVesselA]) 0
      = []
    ∧ applyCommits [] (bulk_save_async_commit_batches [bulkVesselA])
      = applyCommits [] (bulk_save_commit_batches [bulkVesselA]) :=
  ⟨(async_bulk_save_single_transaction [] [bulkVesselA] 0).1 (by decide),
   (async_bulk_save_single_transaction [] [bulkVesselA] 0).2⟩

/-- Helper: the `reconnect_attempts` counter after any event trace equals
the number of connection-level failures since the last successful
connection. -/
theorem runConn_attempts (evs : List ConnEvent) :
    (runConn evs).reconnect_attempts = connFailuresSinceConnect evs := by
  induction evs using List.reverseRecOn with
  | nil => rfl
  | append_singleton l e ih =>
    have hrun : runConn (l ++ [e]) = (stepConn (runConn l) e).1 := by
      simp [runConn, List.foldl_append]
    rw [hrun]
    have hrev : (l ++ [e]).reverse = e :: l.reverse := by simp
    cases e with
    | connected =>
      have h0 : connFailuresSinceConnect (l ++ [ConnEvent.connected]) = 0 := by
        unfold connFailuresSinceConnect
        rw [hrev]
        simp [List.takeWhile_cons]
      rw [h0]
      rfl
    | connFailure =>
      have hcf : connFailuresSinceConnect (l ++ [ConnEvent.connFailure])
          = connFailuresSinceConnect l + 1 := by
        unfold connFailuresSinceConnect
        rw [hrev]
        simp [List.takeWhile_cons, List.count_cons]
      rw [hcf]
      simp [stepConn, ih]
    | otherError =>
      have hof : connFailuresSinceConnect (l ++ [ConnEvent.otherError])
          = connFailuresSinceConnect l := by
        unfold connFailuresSinceConnect
        rw [hrev]
        simp [List.takeWhile_cons, List.count_cons]
      rw [hof]
      simp [stepConn, ih]

/-- C7: after any event trace, the `reconnect_attempts` counter equals
the number of connection-level failures since the last successful
connection; the delay slept on the next connection-level failure is
`min(2 ^ (that count + 1), 60)` — so it doubles per consecutive failed
attempt while `2 ^ (count + 1)` stays below the configured
`max_reconnect_delay = 60` and is capped at 60 otherwise — and a
successful reconnection resets the counter, so the next failure after a
success sleeps the attempt-1 delay `min(2 ^ 1, 60) = 2` seconds, never a
continuation of the previous attempt count. -/
theorem reconnect_backoff_doubles_capped_and_resets (evs : List ConnEvent) :
    (runConn evs).reconnect_attempts = connFailuresSinceConnect evs
    ∧ (stepConn (runConn evs) .connFailure).2
      = some (min (2 ^ (connFailuresSinceConnect evs + 1)) max_reconnect_delay)
    ∧ (∀ d, (stepConn (runConn evs) .connFailure).2 = some d →
        d ≤ max_reconnect_delay)
    ∧ (2 ^ (connFailuresSinceConnect evs + 1) ≤ max_reconnect_delay →
        (stepConn (runConn evs) .connFailure).2
          = some (2 ^ (connFailuresSinceConnect evs + 1)))
    ∧ (stepConn (stepConn (runConn evs) .connected).1 .connFailure).2
      = some 2 := by
  have h1 := runConn_attempts evs
  refine ⟨h1, ?_, ?_, ?_, ?_⟩
  · simp [stepConn, h1]
  · intro d hd
    simp only [stepConn] at hd
    have hd' : min (2 ^ ((runConn evs).reconnect_attempts + 1))
        max_reconnect_delay = d := by
      exact Option.some.inj hd
    omega
  · intro hle
    simp [stepConn, h1, Nat.min_eq_left hle]
  · simp only [stepConn]
    decide

/-- C7 (witness): the backoff theorem applied to the spec scenario trace
— three connection failures, then a successful reconnect: the counter is
back at 0 and the next failure sleeps the attempt-1 delay of 2 seconds,
not the attempt-4 delay. -/
theorem reconnect_backoff_witness :
    (runConn [ConnEvent.connFailure, ConnEvent.connFailure,
        ConnEvent.connFailure, ConnEvent.connected]).reconnect_attempts = 0
    ∧ (stepConn (runConn [ConnEvent.connFailure, ConnEvent.connFailure,
        ConnEvent.connFailure, ConnEvent.connected]) .connFailure).2
      = some 2 := by
  have h := reconnect_backoff_doubles_capped_and_resets
    [ConnEvent.connFailure, ConnEvent.connFailure, ConnEvent.connFailure,
     ConnEvent.connected]
  constructor
  · rw [h.1]
    decide
  · have h4 := h.2.2.2.1 (by decide)
    rw [h4]
    decide

/-- C2: the acceptance policy of both message handlers.  A report whose
identity is already tracked is always accepted and applied, regardless
of the vessel count; a report for a previously unseen identity is
accepted — creating the vessel and applying the update — exactly when
the tracked-vessel count is strictly below `max_vessels`, and otherwise
the handler returns the state unchanged (the message is silently
dropped). -/
theorem handlers_accept_tracked_and_gate_new
    (s : AISClient) (p : PositionReport) (m : ShipStaticMsg) (now : String) :
    (∀ v0, List.lookup p.UserID s.vessels = some v0 →
      List.lookup p.UserID (_handle_position_report s p now).vessels
        = some (posMsgApply v0 p now))
    ∧ (List.lookup p.UserID s.vessels = none →
        (s.vessels.length < s.max_vessels →
          List.lookup p.UserID (_handle_position_report s p now).vessels
            = some (posMsgApply (freshVessel p.UserID) p now))
        ∧ (¬ s.vessels.length < s.max_vessels →
            _handle_position_report s p now = s))
    ∧ (∀ v0, List.lookup m.UserID s.vessels = some v0 →
        List.lookup m.UserID (_handle_static_data s m).vessels
          = some (staticMsgApply v0 m))
    ∧ (List.lookup m.UserID s.vessels = none →
        (s.vessels.length < s.max_vessels →
          List.lookup m.UserID (_handle_static_data s m).vessels
            = some (staticMsgApply (freshVessel m.UserID) m))
        ∧ (¬ s.vessels.length < s.max_vessels →
            _handle_static_data s m = s)) := by
  refine ⟨?_, ?_, ?_, ?_⟩
  · intro v0 hv0
    simp [_handle_position_report, hv0, lookup_upsert_self]
  · intro hnone
    constructor
    · intro hlt
      simp [_handle_position_report, hnone, hlt, lookup_upsert_self]
    · intro hge
      simp [_handle_position_report, hnone, hge]
  · intro v0 hv0
    simp [_handle_static_data, hv0, lookup_upsert_self]
  · intro hnone
    constructor
    · intro hlt
      simp [_handle_static_data, hnone, hlt, lookup_upsert_self]
    · intro hge
      simp [_handle_static_data, hnone, hge]

/-- C2 (witness): the acceptance theorem applied to a concrete client at
capacity (one tracked vessel, ceiling 1): a position report for the
unseen identity 7 is silently dropped, while a static report for the
tracked identity 1 is accepted and applied despite the full cache. -/
theorem handlers_accept_tracked_and_gate_new_witness :
    _handle_position_report clientFullEx posMsgEx "12:00:00" = clientFullEx
    ∧ List.lookup 1 (_handle_static_data clientFullEx staticMsgEx).vessels
      = some (staticMsgApply trackedVesselEx staticMsgEx) := by
  have h := handlers_accept_tracked_and_gate_new clientFullEx posMsgEx
    staticMsgEx "12:00:00"
  constructor
  · exact (h.2.1 (by decide)).2 (by decide)
  · exact h.2.2.1 trackedVesselEx (by decide)

/-- Helper: `update_vessel` on a vessel with a position, written as an
explicit record update. -/
theorem RegionCache.update_vessel_eq (c : RegionCache) (v : Vessel)
    (lat lon : ℚ) (hla : v.lat = some lat) (hlo : v.lon = some lon) :
    c.update_vessel v =
      { c with
        vessel_regions := fun m =>
          if m = v.mmsi then _find_regions_for_vessel c.region_bounds lat lon
          else c.vessel_regions m
        region_vessels := fun r =>
          if r ∈ _find_regions_for_vessel c.region_bounds lat lon then
            insert v.mmsi (c.region_vessels r)
          else if r ∈ c.vessel_regions v.mmsi then
            (c.region_vessels r).erase v.mmsi
          else c.region_vessels r } := by
  unfold RegionCache.update_vessel
  rw [hla, hlo]

/-- Helper: a name is in `_find_regions_for_vessel` exactly when some
configured box with that name contains the position inclusively on all
four bounds. -/
theorem mem_find_regions (bounds : List (String × RegionBounds))
    (lat lon : ℚ) (r : String) :
    r ∈ _find_regions_for_vessel bounds lat lon ↔
      ∃ b : RegionBounds, (r, b) ∈ bounds ∧ b.south ≤ lat ∧ lat ≤ b.north ∧
        b.west ≤ lon ∧ lon ≤ b.east := by
  unfold _find_regions_for_vessel
  simp only [List.mem_toFinset, List.mem_map, List.mem_filter,
    decide_eq_true_eq]
  constructor
  · rintro ⟨⟨r', b⟩, ⟨hmem, hcont⟩, rfl⟩
    exact ⟨b, hmem, hcont⟩
  · rintro ⟨b, hmem, hcont⟩
    exact ⟨(r, b), ⟨hmem, hcont⟩, rfl⟩

/-- Helper: a freshly constructed region cache satisfies the two-way
index invariant. -/
theorem RegionCache.inv_init (bounds : List (String × RegionBounds)) :
    (RegionCache.init bounds).Inv := by
  intro m r
  simp [RegionCache.init]

/-- Helper: `update_vessel` preserves the two-way index invariant. -/
theorem RegionCache.inv_update (c : RegionCache) (hInv : c.Inv) (v : Vessel) :
    (c.update_vessel v).Inv := by
  cases hla : v.lat with
  | none =>
    have hc : c.update_vessel v = c := by
      unfold RegionCache.update_vessel
      rw [hla]
    rw [hc]
    exact hInv
  | some lat =>
    cases hlo : v.lon with
    | none =>
      have hc : c.update_vessel v = c := by
        unfold RegionCache.update_vessel
        rw [hla, hlo]
      rw [hc]
      exact hInv
    | some lon =>
      rw [RegionCache.update_vessel_eq c v lat lon hla hlo]
      intro m r
      by_cases hm : m = v.mmsi <;>
        by_cases hcur : r ∈ _find_regions_for_vessel c.region_bounds lat lon <;>
        by_cases hprev : r ∈ c.vessel_regions v.mmsi <;>
        simp [hm, hcur, hprev, hInv m r, hInv v.mmsi r]

/-- Helper: `remove_vessel` preserves the two-way index invariant. -/
theorem RegionCache.inv_remove (c : RegionCache) (hInv : c.Inv) (mmsi : Int) :
    (c.remove_vessel mmsi).Inv := by
  intro m r
  unfold RegionCache.remove_vessel
  by_cases hm : m = mmsi <;> by_cases hp : r ∈ c.vessel_regions mmsi <;>
    simp [hm, hp, hInv m r, hInv mmsi r]

/-- C5: after the region index is updated for a vessel with position
`(lat, lon)`, the forward read `regions_for` returns exactly the set of
configured regions whose box contains the position inclusively on all
four bounds (`south ≤ lat ≤ north` and `west ≤ lon ≤ east`, boundary
points included, zero or several overlapping memberships allowed), and
the inverse read `vessels_in` contains the identity for exactly those
regions — assuming the two directions of the index were consistent
before the update, which holds in every reachable state
(`inv_init`, `inv_update`, `inv_remove`). -/
theorem region_index_membership_exact (c : RegionCache) (v : Vessel)
    (lat lon : ℚ) (hInv : c.Inv) (hla : v.lat = some lat)
    (hlo : v.lon = some lon) :
    (c.update_vessel v).get_regions_for_vessel v.mmsi
      = _find_regions_for_vessel c.region_bounds lat lon
    ∧ (∀ r, r ∈ (c.update_vessel v).get_regions_for_vessel v.mmsi ↔
        ∃ b : RegionBounds, (r, b) ∈ c.region_bounds ∧ b.south ≤ lat ∧
          lat ≤ b.north ∧ b.west ≤ lon ∧ lon ≤ b.east)
    ∧ (∀ r, v.mmsi ∈ (c.update_vessel v).get_vessels_in_region r ↔
        r ∈ _find_regions_for_vessel c.region_bounds lat lon) := by
  rw [RegionCache.update_vessel_eq c v lat lon hla hlo]
  refine ⟨?_, ?_, ?_⟩
  · simp [RegionCache.get_regions_for_vessel]
  · intro r
    simp [RegionCache.get_regions_for_vessel, mem_find_regions]
  · intro r
    by_cases hcur : r ∈ _find_regions_for_vessel c.region_bounds lat lon
    · simp [RegionCache.get_vessels_in_region, hcur]
    · by_cases hprev : r ∈ c.vessel_regions v.mmsi
      · simp [RegionCache.get_vessels_in_region, hcur, hprev]
      · simp only [RegionCache.get_vessels_in_region, hcur, if_false,
          hprev, iff_false]
        exact fun hmem => hprev ((hInv v.mmsi r).mp hmem)

/-- C5 (witness): the membership theorem applied to the spec scenario —
two overlapping boxes `A = [[0, 0], [10, 10]]`, `B = [[5, 5], [15, 15]]`
and a vessel at `(7, 7)` in a fresh cache: both reads report exactly
`A` and `B`. -/
theorem region_index_membership_exact_witness :
    "A" ∈ (RegionCache.update_vessel (RegionCache.init regionsABEx)
        vesselAt77Ex).get_regions_for_vessel vesselAt77Ex.mmsi
    ∧ "B" ∈ (RegionCache.update_vessel (RegionCache.init regionsABEx)
        vesselAt77Ex).get_regions_for_vessel vesselAt77Ex.mmsi
    ∧ vesselAt77Ex.mmsi ∈ (RegionCache.update_vessel (RegionCache.init
        regionsABEx) vesselAt77Ex).get_vessels_in_region "A"
    ∧ vesselAt77Ex.mmsi ∈ (RegionCache.update_vessel (RegionCache.init
        regionsABEx) vesselAt77Ex).get_vessels_in_region "B" := by
  have h := region_index_membership_exact (RegionCache.init regionsABEx)
    vesselAt77Ex 7 7 (RegionCache.inv_init regionsABEx) rfl rfl
  refine ⟨?_, ?_, ?_, ?_⟩
  · rw [h.1]
    decide
  · rw [h.1]
    decide
  · exact (h.2.2 "A").mpr (by decide)
  · exact (h.2.2 "B").mpr (by decide)

/-- C8: evaluating `get_tankers` on a non-empty cache raises `TypeError`
instead of filtering.  The cache here holds a single vessel that is a
tanker by enum code 80, and 80 is a member of the supplied type set, so
the claimed behaviour would return that vessel — but the comprehension's
call `vessel.is_tanker(tanker_types)` passes a positional argument to
`Vessel.is_tanker`, which accepts none, so Python raises before any
filtering happens. -/
theorem get_tankers_raises_type_error :
    get_tankers tankerCacheEx [80, 81, 82, 83, 84, 85, 86, 87, 88, 89]
      = .error "TypeError: is_tanker() takes 1 positional argument but 2 were given"
    ∧ ShipType.TANKER.is_tanker = true
    ∧ (80 : Int) ∈ ([80, 81, 82, 83, 84, 85, 86, 87, 88, 89] : List Int)
    ∧ (Vessel.is_tanker { mmsi := 1, ship_type := some (.enum .TANKER) })
      = .ok true := by
  refine ⟨rfl, by decide, by decide, rfl⟩

end TankersTracker
